import Mathlib

/-!
Shallow embedding of `src/MCPForUnity/UnityMcpServer~/src/tools/compile_monitor.py`
(the poll-and-classify compile monitor of the unity-mcp server).

Python values flowing through the module (JSON-like dicts, lists, strings,
booleans, ints, None) are modelled by the inductive type `Val`.  Python
exceptions are modelled by `Except String`; the transport collaborator
`send_command_with_retry` (external, file `unity_connection.py`, outside the
verified sources) is modelled as a `World`: a function from the index of the
transport call within the run (0, 1, 2, ...) and the command name/params to
either a returned `Val` (`.ok`) or a raised exception (`.error`), per the
spec: "sends a named command with a parameter mapping to the remote editor and
returns a structured response or fails".

Wall-clock time is modelled in 500 ms ticks, the sleep interval of the polling
loop: the loop body is instantaneous and each iteration advances time by one
tick, so an elapsed time of `k` ticks is `k * 0.5` seconds and the loop guard
`time.time() - start_time < timeout_seconds` becomes `k < 2 * t`.
-/

namespace CompileMonitor

/-- Python runtime values as they occur in this module: `None`, booleans,
ints, strings, lists and string-keyed dicts. -/
inductive Val where
  | vNull : Val
  | vBool (b : Bool) : Val
  | vInt (n : Int) : Val
  | vStr (s : String) : Val
  | vList (xs : List Val) : Val
  | vDict (fields : List (String × Val)) : Val

/-- Lookup of a key in a dict's field list (Python dicts have unique keys;
first binding wins). -/
def lookupField : List (String × Val) → String → Option Val
  | [], _ => none
  | (k, v) :: rest, key => if k = key then some v else lookupField rest key

/-- `fs.get(key, dflt)` on a field list: the stored value when the key is
present (even if it is `None`), the default otherwise. -/
def fieldOrD (fs : List (String × Val)) (key : String) (dflt : Val) : Val :=
  (lookupField fs key).getD dflt

/-- Proof-side accessor: the value stored under `key` when `v` is a dict that
has it. -/
def Val.get : Val → String → Option Val
  | .vDict fs, key => lookupField fs key
  | _, _ => none

/-- `obj.get(key, dflt)` as executed by the source: an `AttributeError` is
raised when `obj` is not a dict. -/
def pyGetD (v : Val) (key : String) (dflt : Val) : Except String Val :=
  match v with
  | .vDict fs => .ok (fieldOrD fs key dflt)
  | _ => .error "AttributeError: object has no attribute get"

/-- Python truthiness. -/
def Val.truthy : Val → Bool
  | .vNull => false
  | .vBool b => b
  | .vInt n => n != 0
  | .vStr s => s != ""
  | .vList xs => !xs.isEmpty
  | .vDict fs => !fs.isEmpty

/-- Truthiness of an optional value, `none` standing for an absent field
(Python `None`, falsy). -/
def truthyOpt : Option Val → Bool
  | none => false
  | some v => v.truthy

/-- Python `v == lit` for a string literal `lit`: true exactly when `v` is
that string (no value of another type compares equal to a `str`). -/
def strEq (v : Val) (lit : String) : Bool :=
  match v with
  | .vStr s => s == lit
  | _ => false

/-- `for entry in obj:` — lists yield their elements, dicts their keys,
strings their characters; other values raise `TypeError`. -/
def pyIter : Val → Except String (List Val)
  | .vList xs => .ok xs
  | .vDict fs => .ok (fs.map fun p => .vStr p.1)
  | .vStr s => .ok (s.toList.map fun c => .vStr (String.mk [c]))
  | _ => .error "TypeError: object is not iterable"

/-- Python `str(v)`.  Faithful on the scalar values the source ever passes to
`str` (`None`, booleans, ints, strings); container rendering is abbreviated
(no quoting of nested strings) — no verified property depends on it. -/
def Val.pyStr : Val → String
  | .vNull => "None"
  | .vBool true => "True"
  | .vBool false => "False"
  | .vInt n => toString n
  | .vStr s => s
  | .vList _ => "[...]"
  | .vDict _ => "\x7b...\x7d"

/-- The transport collaborator (`send_command_with_retry`): the component
observes, for the `n`-th transport call of a run (counted from the starting
index), either a returned value or a raised exception.  The command name and
parameter mapping are passed through so that a world can react to what was
sent. -/
structure World where
  send : Nat → String → Val → Except String Val

/-- Params of `send_command_with_retry("manage_editor", {"action": "get_state"})`. -/
def getStateParams : Val := .vDict [("action", .vStr "get_state")]

/-- Params of `send_command_with_retry("read_console", {"action": "get", "count": n})`. -/
def consoleGetParams (count : Int) : Val :=
  .vDict [("action", .vStr "get"), ("count", .vInt count)]

/-- Params of `send_command_with_retry("read_console", {"action": "clear"})`. -/
def consoleClearParams : Val := .vDict [("action", .vStr "clear")]

/-- Params of `send_command_with_retry("execute_menu_item", {"menuPath": "Assets/Refresh"})`. -/
def menuRefreshParams : Val := .vDict [("menuPath", .vStr "Assets/Refresh")]

/-- The failure envelope `{"success": False, "message": msg}` used all over
the source. -/
def mkFail (msg : String) : Val :=
  .vDict [("success", .vBool false), ("message", .vStr msg)]

/-- Error record built inside `get_compile_status` (lines 64-69): message,
file, line, and an unconditional `stackTrace` defaulting to `""`. -/
def mkStatusErrorInfo (fs : List (String × Val)) : Val :=
  .vDict [("message", fieldOrD fs "message" (.vStr "")),
          ("file", fieldOrD fs "file" (.vStr "")),
          ("line", fieldOrD fs "line" (.vStr "")),
          ("stackTrace", fieldOrD fs "stackTrace" (.vStr ""))]

/-- Warning record built in `get_compile_status` (lines 71-75) and, with the
same shape, in `get_compilation_warnings` (lines 169-173): exactly message,
file, line. -/
def mkWarningInfo (fs : List (String × Val)) : Val :=
  .vDict [("message", fieldOrD fs "message" (.vStr "")),
          ("file", fieldOrD fs "file" (.vStr "")),
          ("line", fieldOrD fs "line" (.vStr ""))]

/-- Error record built inside `get_compilation_errors` (lines 138-145):
`stackTrace` is appended only when `include_stack_trace` holds and
`entry.get("stackTrace")` is truthy. -/
def mkErrorInfo (include_stack_trace : Bool) (fs : List (String × Val)) : Val :=
  if include_stack_trace && (fieldOrD fs "stackTrace" .vNull).truthy then
    .vDict [("message", fieldOrD fs "message" (.vStr "")),
            ("file", fieldOrD fs "file" (.vStr "")),
            ("line", fieldOrD fs "line" (.vStr "")),
            ("stackTrace", fieldOrD fs "stackTrace" (.vStr ""))]
  else
    .vDict [("message", fieldOrD fs "message" (.vStr "")),
            ("file", fieldOrD fs "file" (.vStr "")),
            ("line", fieldOrD fs "line" (.vStr ""))]

/-- The classification loop of `get_compile_status` (lines 62-75): walks the
console entries in order, appending Error entries to the first list and
Warning entries to the second; any other kind is dropped.  An entry that is
not a dict raises (`entry.get` on a non-dict), aborting the whole loop. -/
def statusClassify : List Val → Except String (List Val × List Val)
  | [] => .ok ([], [])
  | entry :: rest =>
    match entry with
    | .vDict fs =>
      match statusClassify rest with
      | .error e => .error e
      | .ok (errs, warns) =>
        if strEq (fieldOrD fs "type" .vNull) "Error" then
          .ok (mkStatusErrorInfo fs :: errs, warns)
        else if strEq (fieldOrD fs "type" .vNull) "Warning" then
          .ok (errs, mkWarningInfo fs :: warns)
        else
          .ok (errs, warns)
    | _ => .error "AttributeError: object has no attribute get"

/-- The error-collection loop of `get_compilation_errors` (lines 136-145). -/
def collectErrors (include_stack_trace : Bool) : List Val → Except String (List Val)
  | [] => .ok []
  | entry :: rest =>
    match entry with
    | .vDict fs =>
      match collectErrors include_stack_trace rest with
      | .error e => .error e
      | .ok errs =>
        if strEq (fieldOrD fs "type" .vNull) "Error" then
          .ok (mkErrorInfo include_stack_trace fs :: errs)
        else
          .ok errs
    | _ => .error "AttributeError: object has no attribute get"

/-- The warning-collection loop of `get_compilation_warnings` (lines 167-173). -/
def collectWarnings : List Val → Except String (List Val)
  | [] => .ok []
  | entry :: rest =>
    match entry with
    | .vDict fs =>
      match collectWarnings rest with
      | .error e => .error e
      | .ok warns =>
        if strEq (fieldOrD fs "type" .vNull) "Warning" then
          .ok (mkWarningInfo fs :: warns)
        else
          .ok warns
    | _ => .error "AttributeError: object has no attribute get"

/-- The `data` payload of a successful status snapshot (lines 80-90). -/
def snapshotData (is_compiling is_updating : Val) (errs warns : List Val) : Val :=
  .vDict [("isCompiling", is_compiling),
          ("isUpdating", is_updating),
          ("hasErrors", .vBool (decide (0 < errs.length))),
          ("hasWarnings", .vBool (decide (0 < warns.length))),
          ("errorCount", .vInt errs.length),
          ("warningCount", .vInt warns.length),
          ("errors", .vList errs),
          ("warnings", .vList warns),
          ("status", if is_compiling.truthy then .vStr "compiling"
                     else if is_updating.truthy then .vStr "updating"
                     else .vStr "idle")]

/-- A successful status snapshot (lines 77-91). -/
def statusSuccess (is_compiling is_updating : Val) (errs warns : List Val) : Val :=
  .vDict [("success", .vBool true),
          ("message", .vStr "Compilation status retrieved"),
          ("data", snapshotData is_compiling is_updating errs warns)]

/-- `get_compile_status` (lines 43-93).  `n` is the index of the next
transport call; the returned `Nat` is the index after the calls this
operation issued.  The `try`/`except` of the source shows up as the
`.error` branches, every one of which ends in the catch-all envelope
`"Error getting compile status: ..."`. -/
def get_compile_status (w : World) (n : Nat) : Val × Nat :=
  match w.send n "manage_editor" getStateParams with
  | .error e => (mkFail ("Error getting compile status: " ++ e), n + 1)
  | .ok editor_response =>
    match editor_response with
    | .vDict efs =>
      if !(fieldOrD efs "success" .vNull).truthy then
        (mkFail "Failed to get editor state", n + 1)
      else
        match pyGetD (fieldOrD efs "data" (.vDict [])) "isCompiling" (.vBool false) with
        | .error e => (mkFail ("Error getting compile status: " ++ e), n + 1)
        | .ok is_compiling =>
          match pyGetD (fieldOrD efs "data" (.vDict [])) "isUpdating" (.vBool false) with
          | .error e => (mkFail ("Error getting compile status: " ++ e), n + 1)
          | .ok is_updating =>
            match w.send (n + 1) "read_console" (consoleGetParams 50) with
            | .error e => (mkFail ("Error getting compile status: " ++ e), n + 2)
            | .ok console_response =>
              match console_response with
              | .vDict cfs =>
                if (fieldOrD cfs "success" .vNull).truthy then
                  match pyIter (fieldOrD cfs "data" (.vList [])) with
                  | .error e => (mkFail ("Error getting compile status: " ++ e), n + 2)
                  | .ok console_data =>
                    match statusClassify console_data with
                    | .error e => (mkFail ("Error getting compile status: " ++ e), n + 2)
                    | .ok (errs, warns) =>
                      (statusSuccess is_compiling is_updating errs warns, n + 2)
                else
                  (statusSuccess is_compiling is_updating [] [], n + 2)
              | _ => (statusSuccess is_compiling is_updating [] [], n + 2)
    | _ =>
      -- `not isinstance(editor_response, dict)` short-circuits before `.get`
      (mkFail "Failed to get editor state", n + 1)

/-- The timeout result of the waiter (lines 119-123). -/
def timeoutResult (t : Int) : Val :=
  .vDict [("success", .vBool false),
          ("message", .vStr ("Compilation timeout after " ++ toString t ++ " seconds")),
          ("data", .vDict [("timeout", .vBool true)])]

/-- The success result of the waiter (lines 108-115); `waitTicks` is the
elapsed wall-clock time in 500 ms ticks (`waitTime` seconds = ticks / 2). -/
def completedResult (waitTicks : Nat) (status_data : Val) : Val :=
  .vDict [("success", .vBool true),
          ("message", .vStr "Compilation completed"),
          ("data", .vDict [("waitTime", .vInt waitTicks),
                           ("finalStatus", status_data)])]

/-- One step of the polling loop of `wait_for_compilation_complete`
(lines 101-117).  `k` is the elapsed time in 500 ms ticks and `gas` is the
number of ticks left before the deadline, i.e. `gas = (2*t - k).toNat` along
every run starting from `k = 0`: the loop guard
`time.time() - start_time < timeout_seconds` (that is, `k < 2*t`) is exactly
`gas > 0`, so the fuel is not a truncation — the loop runs precisely until
the guard fails. -/
def waitAux (w : World) (t : Int) : Nat → Nat → Nat → Val × Nat
  | 0, _, n => (timeoutResult t, n)
  | gas + 1, k, n =>
    match get_compile_status w n with
    | (status_response, n1) =>
      if !truthyOpt (status_response.get "success") then
        (status_response, n1)
      else
        match pyGetD status_response "data" (.vDict []) with
        | .error e => (mkFail ("Error waiting for compilation: " ++ e), n1)
        | .ok status_data =>
          match pyGetD status_data "isCompiling" (.vBool false) with
          | .error e => (mkFail ("Error waiting for compilation: " ++ e), n1)
          | .ok is_compiling =>
            match pyGetD status_data "isUpdating" (.vBool false) with
            | .error e => (mkFail ("Error waiting for compilation: " ++ e), n1)
            | .ok is_updating =>
              if !is_compiling.truthy && !is_updating.truthy then
                (completedResult k status_data, n1)
              else
                waitAux w t gas (k + 1) n1

/-- `wait_for_compilation_complete` (lines 96-125): polls `get_compile_status`
every 500 ms until the flags clear or `timeout_seconds` elapse.  The initial
fuel `(2*t).toNat` is the number of 500 ms ticks in the timeout window. -/
def wait_for_compilation_complete (w : World) (timeout_seconds : Int) (n : Nat) : Val × Nat :=
  waitAux w timeout_seconds (2 * timeout_seconds).toNat 0 n

/-- The success envelope of `get_compilation_errors` (lines 147-154). -/
def errorsResult (errs : List Val) : Val :=
  .vDict [("success", .vBool true),
          ("message", .vStr ("Retrieved " ++ toString errs.length ++ " compilation errors")),
          ("data", .vDict [("errorCount", .vInt errs.length),
                           ("errors", .vList errs)])]

/-- `get_compilation_errors` (lines 128-156). -/
def get_compilation_errors (include_stack_trace : Bool) (w : World) (n : Nat) : Val × Nat :=
  match w.send n "read_console" (consoleGetParams 100) with
  | .error e => (mkFail ("Error getting compilation errors: " ++ e), n + 1)
  | .ok console_response =>
    match console_response with
    | .vDict cfs =>
      if (fieldOrD cfs "success" .vNull).truthy then
        match pyIter (fieldOrD cfs "data" (.vList [])) with
        | .error e => (mkFail ("Error getting compilation errors: " ++ e), n + 1)
        | .ok console_data =>
          match collectErrors include_stack_trace console_data with
          | .error e => (mkFail ("Error getting compilation errors: " ++ e), n + 1)
          | .ok errs => (errorsResult errs, n + 1)
      else (errorsResult [], n + 1)
    | _ => (errorsResult [], n + 1)

/-- The success envelope of `get_compilation_warnings` (lines 175-182). -/
def warningsResult (warns : List Val) : Val :=
  .vDict [("success", .vBool true),
          ("message", .vStr ("Retrieved " ++ toString warns.length ++ " compilation warnings")),
          ("data", .vDict [("warningCount", .vInt warns.length),
                           ("warnings", .vList warns)])]

/-- `get_compilation_warnings` (lines 159-184).  Note: it takes no
stack-trace parameter. -/
def get_compilation_warnings (w : World) (n : Nat) : Val × Nat :=
  match w.send n "read_console" (consoleGetParams 100) with
  | .error e => (mkFail ("Error getting compilation warnings: " ++ e), n + 1)
  | .ok console_response =>
    match console_response with
    | .vDict cfs =>
      if (fieldOrD cfs "success" .vNull).truthy then
        match pyIter (fieldOrD cfs "data" (.vList [])) with
        | .error e => (mkFail ("Error getting compilation warnings: " ++ e), n + 1)
        | .ok console_data =>
          match collectWarnings console_data with
          | .error e => (mkFail ("Error getting compilation warnings: " ++ e), n + 1)
          | .ok warns => (warningsResult warns, n + 1)
      else (warningsResult [], n + 1)
    | _ => (warningsResult [], n + 1)

/-- `clear_compilation_errors` (lines 187-193): a dict response is returned
unchanged, anything else is wrapped as `{"success": False, "message": str(resp)}`. -/
def clear_compilation_errors (w : World) (n : Nat) : Val × Nat :=
  match w.send n "read_console" consoleClearParams with
  | .error e => (mkFail ("Error clearing compilation errors: " ++ e), n + 1)
  | .ok console_response =>
    match console_response with
    | .vDict cfs => (.vDict cfs, n + 1)
    | other => (mkFail other.pyStr, n + 1)

/-- `force_recompile` (lines 196-209): a truthy-success dict response is
replaced by the explicit `{recompileTriggered: true}` payload; any other dict
is returned unchanged; a non-dict is wrapped. -/
def force_recompile (w : World) (n : Nat) : Val × Nat :=
  match w.send n "execute_menu_item" menuRefreshParams with
  | .error e => (mkFail ("Error forcing recompilation: " ++ e), n + 1)
  | .ok menu_response =>
    match menu_response with
    | .vDict mfs =>
      if (fieldOrD mfs "success" .vNull).truthy then
        (.vDict [("success", .vBool true),
                 ("message", .vStr "Forced recompilation initiated"),
                 ("data", .vDict [("recompileTriggered", .vBool true)])], n + 1)
      else (.vDict mfs, n + 1)
    | other => (mkFail other.pyStr, n + 1)

/-- `timeout_seconds or 30` (line 27): Python `or` falls back to the default
when the left operand is falsy, i.e. when it is `None` — or `0`. -/
def pyOrInt (x : Option Int) (dflt : Int) : Int :=
  match x with
  | none => dflt
  | some v => if v != 0 then v else dflt

/-- `include_stack_trace or False` (line 29). -/
def pyOrBool (x : Option Bool) : Bool :=
  match x with
  | none => false
  | some b => b

/-- The action dispatcher `compile_monitor` (lines 15-40).  Its outer
`try`/`except` (which would produce
`{"success": False, "message": "Python error in compile_monitor: ..."}`)
is unreachable in this model: every handler catches all of its own
exceptions, which the spec's design notes record ("every handler wraps its
own body"), so the dispatch reduces to the routing below. -/
def compile_monitor (action : String) (timeout_seconds : Option Int)
    (include_stack_trace : Option Bool) (w : World) (n : Nat) : Val × Nat :=
  if action = "get_status" then get_compile_status w n
  else if action = "wait_for_complete" then
    wait_for_compilation_complete w (pyOrInt timeout_seconds 30) n
  else if action = "get_errors" then
    get_compilation_errors (pyOrBool include_stack_trace) w n
  else if action = "get_warnings" then get_compilation_warnings w n
  else if action = "clear_errors" then clear_compilation_errors w n
  else if action = "force_recompile" then force_recompile w n
  else (mkFail ("Unknown action: " ++ action), n)

/-! ### Proof-side inspectors and specification predicates -/

/-- The value under `key` inside the `data` payload of a result. -/
def dataGet (v : Val) (key : String) : Option Val :=
  match v.get "data" with
  | some d => d.get key
  | none => none

/-- `isinstance(v, dict) and v.get("success")` — a success envelope in the
sense of the source's checks. -/
def successEnvelope (v : Val) : Bool :=
  match v with
  | .vDict fs => (fieldOrD fs "success" .vNull).truthy
  | _ => false

/-- The spec's ActionResult envelope: a record with a boolean `success` field
and a text `message` field. -/
def isEnvelope (v : Val) : Prop :=
  (∃ b, v.get "success" = some (.vBool b)) ∧ (∃ m, v.get "message" = some (.vStr m))

/-- The structured timeout marker of the spec: `data.timeout == true`. -/
def hasTimeoutMarker (v : Val) : Prop :=
  dataGet v "timeout" = some (.vBool true)

/-- The `errors` list inside a result's `data` payload. -/
def resultErrors (v : Val) : List Val :=
  match dataGet v "errors" with
  | some (.vList xs) => xs
  | _ => []

/-- The `warnings` list inside a result's `data` payload. -/
def resultWarnings (v : Val) : List Val :=
  match dataGet v "warnings" with
  | some (.vList xs) => xs
  | _ => []

/-- The keys of a dict value, in insertion order. -/
def Val.keys : Val → List String
  | .vDict fs => fs.map Prod.fst
  | _ => []

/-- Selector describing which console entries the status loop turns into
error records. -/
def errStatusSel : Val → Option Val
  | .vDict fs =>
    if strEq (fieldOrD fs "type" .vNull) "Error" then some (mkStatusErrorInfo fs) else none
  | _ => none

/-- Selector describing which console entries the loops turn into warning
records. -/
def warnSel : Val → Option Val
  | .vDict fs =>
    if strEq (fieldOrD fs "type" .vNull) "Warning" then some (mkWarningInfo fs) else none
  | _ => none

/-- Selector describing which console entries `get_compilation_errors` turns
into error records. -/
def errSel (include_stack_trace : Bool) : Val → Option Val
  | .vDict fs =>
    if strEq (fieldOrD fs "type" .vNull) "Error" then
      some (mkErrorInfo include_stack_trace fs)
    else none
  | _ => none

/-! ### Basic lemmas -/

theorem strEq_eq_true_iff (v : Val) (lit : String) :
    strEq v lit = true ↔ v = .vStr lit := by
  cases v <;> simp [strEq]

theorem statusSuccess_get_success (a b : Val) (es ws : List Val) :
    (statusSuccess a b es ws).get "success" = some (.vBool true) := rfl

theorem mkFail_get_success (m : String) :
    (mkFail m).get "success" = some (.vBool false) := rfl

theorem mkFail_get_data (m : String) : (mkFail m).get "data" = none := rfl

/-- `get_compile_status` only ever returns a `mkFail` envelope or a
`statusSuccess` snapshot. -/
theorem get_compile_status_shape (w : World) (n : Nat) :
    (∃ m, (get_compile_status w n).1 = mkFail m) ∨
    (∃ ic iu errs warns,
      (get_compile_status w n).1 = statusSuccess ic iu errs warns) := by
  unfold get_compile_status
  repeat' split
  all_goals first
    | exact .inl ⟨_, rfl⟩
    | exact .inr ⟨_, _, _, _, rfl⟩

/-- On a sequence of dict-shaped console entries the status loop computes
exactly the order-preserving `filterMap`s of the two selectors. -/
theorem statusClassify_eq (l : List Val) (h : ∀ e ∈ l, ∃ fs, e = Val.vDict fs) :
    statusClassify l = .ok (l.filterMap errStatusSel, l.filterMap warnSel) := by
  induction l with
  | nil => rfl
  | cons entry rest ih =>
    obtain ⟨fs, rfl⟩ := h entry (List.mem_cons_self _ _)
    have ih2 := ih (fun x hx => h x (List.mem_cons_of_mem _ hx))
    by_cases hE : strEq (fieldOrD fs "type" .vNull) "Error" = true
    · have hW : strEq (fieldOrD fs "type" .vNull) "Warning" = false := by
        rw [strEq_eq_true_iff] at hE
        rw [hE]
        simp [strEq]
      simp [statusClassify, ih2, List.filterMap_cons, errStatusSel, warnSel, hE, hW]
    · by_cases hW : strEq (fieldOrD fs "type" .vNull) "Warning" = true
      · simp [statusClassify, ih2, List.filterMap_cons, errStatusSel, warnSel,
          Bool.eq_false_iff.2 hE, hW]
      · simp [statusClassify, ih2, List.filterMap_cons, errStatusSel, warnSel,
          Bool.eq_false_iff.2 hE, Bool.eq_false_iff.2 hW]

/-- Same for the error loop of `get_compilation_errors`. -/
theorem collectErrors_eq (include_stack_trace : Bool) (l : List Val)
    (h : ∀ e ∈ l, ∃ fs, e = Val.vDict fs) :
    collectErrors include_stack_trace l = .ok (l.filterMap (errSel include_stack_trace)) := by
  induction l with
  | nil => rfl
  | cons entry rest ih =>
    obtain ⟨fs, rfl⟩ := h entry (List.mem_cons_self _ _)
    have ih2 := ih (fun x hx => h x (List.mem_cons_of_mem _ hx))
    by_cases hE : strEq (fieldOrD fs "type" .vNull) "Error" = true
    · simp [collectErrors, ih2, List.filterMap_cons, errSel, hE]
    · simp [collectErrors, ih2, List.filterMap_cons, errSel, Bool.eq_false_iff.2 hE]

/-- Same for the warning loop of `get_compilation_warnings`. -/
theorem collectWarnings_eq (l : List Val) (h : ∀ e ∈ l, ∃ fs, e = Val.vDict fs) :
    collectWarnings l = .ok (l.filterMap warnSel) := by
  induction l with
  | nil => rfl
  | cons entry rest ih =>
    obtain ⟨fs, rfl⟩ := h entry (List.mem_cons_self _ _)
    have ih2 := ih (fun x hx => h x (List.mem_cons_of_mem _ hx))
    by_cases hW : strEq (fieldOrD fs "type" .vNull) "Warning" = true
    · simp [collectWarnings, ih2, List.filterMap_cons, warnSel, hW]
    · simp [collectWarnings, ih2, List.filterMap_cons, warnSel, Bool.eq_false_iff.2 hW]

/-- Whatever list the error loop produces, each element is an
`mkErrorInfo` record. -/
theorem collectErrors_mem (include_stack_trace : Bool) :
    ∀ (l : List Val) (errs : List Val),
      collectErrors include_stack_trace l = .ok errs →
      ∀ r ∈ errs, ∃ fs, r = mkErrorInfo include_stack_trace fs := by
  intro l
  induction l with
  | nil =>
    intro errs h r hr
    simp only [collectErrors] at h
    cases h
    cases hr
  | cons entry rest ih =>
    intro errs h r hr
    cases entry with
    | vDict fs =>
      simp only [collectErrors] at h
      split at h
      · cases h
      · rename_i errs2 hrec
        split at h
        · cases h
          rcases List.mem_cons.1 hr with hr1 | hr2
          · exact ⟨fs, hr1⟩
          · exact ih _ hrec r hr2
        · cases h
          exact ih _ hrec r hr
    | vNull => cases h
    | vBool b => cases h
    | vInt i => cases h
    | vStr s => cases h
    | vList xs => cases h

/-- Whatever list the warning loop produces, each element is an
`mkWarningInfo` record. -/
theorem collectWarnings_mem :
    ∀ (l : List Val) (warns : List Val),
      collectWarnings l = .ok warns →
      ∀ r ∈ warns, ∃ fs, r = mkWarningInfo fs := by
  intro l
  induction l with
  | nil =>
    intro warns h r hr
    simp only [collectWarnings] at h
    cases h
    cases hr
  | cons entry rest ih =>
    intro warns h r hr
    cases entry with
    | vDict fs =>
      simp only [collectWarnings] at h
      split at h
      · cases h
      · rename_i warns2 hrec
        split at h
        · cases h
          rcases List.mem_cons.1 hr with hr1 | hr2
          · exact ⟨fs, hr1⟩
          · exact ih _ hrec r hr2
        · cases h
          exact ih _ hrec r hr
    | vNull => cases h
    | vBool b => cases h
    | vInt i => cases h
    | vStr s => cases h
    | vList xs => cases h

/-- Whatever pair of lists the status loop produces, errors are
`mkStatusErrorInfo` records and warnings are `mkWarningInfo` records. -/
theorem statusClassify_mem :
    ∀ (l : List Val) (errs warns : List Val),
      statusClassify l = .ok (errs, warns) →
      (∀ r ∈ errs, ∃ fs, r = mkStatusErrorInfo fs) ∧
      (∀ r ∈ warns, ∃ fs, r = mkWarningInfo fs) := by
  intro l
  induction l with
  | nil =>
    intro errs warns h
    simp only [statusClassify] at h
    cases h
    exact ⟨fun r hr => absurd hr (List.not_mem_nil r), fun r hr => absurd hr (List.not_mem_nil r)⟩
  | cons entry rest ih =>
    intro errs warns h
    cases entry with
    | vDict fs =>
      simp only [statusClassify] at h
      split at h
      · cases h
      · rename_i errs2 warns2 hrec
        obtain ⟨ihe, ihw⟩ := ih _ _ hrec
        split at h
        · cases h
          refine ⟨fun r hr => ?_, ihw⟩
          rcases List.mem_cons.1 hr with hr1 | hr2
          · exact ⟨fs, hr1⟩
          · exact ihe r hr2
        · split at h
          · cases h
            refine ⟨ihe, fun r hr => ?_⟩
            rcases List.mem_cons.1 hr with hr1 | hr2
            · exact ⟨fs, hr1⟩
            · exact ihw r hr2
          · cases h
            exact ⟨ihe, ihw⟩
    | vNull => cases h
    | vBool b => cases h
    | vInt i => cases h
    | vStr s => cases h
    | vList xs => cases h

theorem isEnvelope_mkFail (m : String) : isEnvelope (mkFail m) :=
  ⟨⟨false, rfl⟩, ⟨m, rfl⟩⟩

theorem isEnvelope_statusSuccess (a b : Val) (es ws : List Val) :
    isEnvelope (statusSuccess a b es ws) :=
  ⟨⟨true, rfl⟩, ⟨_, rfl⟩⟩

theorem isEnvelope_errorsResult (es : List Val) : isEnvelope (errorsResult es) :=
  ⟨⟨true, rfl⟩, ⟨_, rfl⟩⟩

theorem isEnvelope_warningsResult (ws : List Val) : isEnvelope (warningsResult ws) :=
  ⟨⟨true, rfl⟩, ⟨_, rfl⟩⟩

theorem isEnvelope_timeoutResult (t : Int) : isEnvelope (timeoutResult t) :=
  ⟨⟨false, rfl⟩, ⟨_, rfl⟩⟩

theorem isEnvelope_completedResult (k : Nat) (sd : Val) :
    isEnvelope (completedResult k sd) :=
  ⟨⟨true, rfl⟩, ⟨_, rfl⟩⟩

/-- An ActionResult envelope is in particular a dict. -/
theorem isEnvelope_isDict {v : Val} (h : isEnvelope v) : ∃ fs, v = .vDict fs := by
  obtain ⟨⟨b, hb⟩, -⟩ := h
  cases v with
  | vDict fs => exact ⟨fs, rfl⟩
  | vNull => cases hb
  | vBool x => cases hb
  | vInt x => cases hb
  | vStr x => cases hb
  | vList x => cases hb

theorem resultErrors_mkFail (m : String) : resultErrors (mkFail m) = [] := rfl

theorem resultErrors_errorsResult (es : List Val) :
    resultErrors (errorsResult es) = es := rfl

theorem resultWarnings_mkFail (m : String) : resultWarnings (mkFail m) = [] := rfl

theorem resultWarnings_warningsResult (ws : List Val) :
    resultWarnings (warningsResult ws) = ws := rfl

theorem resultWarnings_statusSuccess (a b : Val) (es ws : List Val) :
    resultWarnings (statusSuccess a b es ws) = ws := rfl

theorem resultErrors_statusSuccess (a b : Val) (es ws : List Val) :
    resultErrors (statusSuccess a b es ws) = es := rfl

/-- `get_compile_status` always returns the ActionResult envelope. -/
theorem get_compile_status_envelope (w : World) (n : Nat) :
    isEnvelope (get_compile_status w n).1 := by
  rcases get_compile_status_shape w n with ⟨m, hm⟩ | ⟨ic, iu, es, ws, hs⟩
  · rw [hm]; exact isEnvelope_mkFail m
  · rw [hs]; exact isEnvelope_statusSuccess ic iu es ws

/-- `get_compilation_errors` always returns the ActionResult envelope. -/
theorem get_compilation_errors_envelope (include_stack_trace : Bool) (w : World) (n : Nat) :
    isEnvelope (get_compilation_errors include_stack_trace w n).1 := by
  unfold get_compilation_errors
  repeat' split
  all_goals first
    | exact isEnvelope_mkFail _
    | exact isEnvelope_errorsResult _

/-- `get_compilation_warnings` always returns the ActionResult envelope. -/
theorem get_compilation_warnings_envelope (w : World) (n : Nat) :
    isEnvelope (get_compilation_warnings w n).1 := by
  unfold get_compilation_warnings
  repeat' split
  all_goals first
    | exact isEnvelope_mkFail _
    | exact isEnvelope_warningsResult _

/-- The polling loop always returns the ActionResult envelope. -/
theorem waitAux_envelope (w : World) (t : Int) :
    ∀ (gas k n : Nat), isEnvelope (waitAux w t gas k n).1 := by
  intro gas
  induction gas with
  | zero => intro k n; exact isEnvelope_timeoutResult t
  | succ gas ih =>
    intro k n
    rcases hshape : get_compile_status w n with ⟨status_response, n1⟩
    have henv := get_compile_status_envelope w n
    rw [hshape] at henv
    simp only [waitAux, hshape]
    split
    · exact henv
    · repeat' split
      all_goals first
        | exact isEnvelope_mkFail _
        | exact isEnvelope_completedResult _ _
        | exact ih _ _

/-- `wait_for_compilation_complete` always returns the ActionResult envelope. -/
theorem wait_envelope (w : World) (t : Int) (n : Nat) :
    isEnvelope (wait_for_compilation_complete w t n).1 :=
  waitAux_envelope w t _ 0 n

/-- `clear_compilation_errors` always returns a dict. -/
theorem clear_returns_dict (w : World) (n : Nat) :
    ∃ fs, (clear_compilation_errors w n).1 = .vDict fs := by
  unfold clear_compilation_errors
  repeat' split
  all_goals exact ⟨_, rfl⟩

/-- `force_recompile` always returns a dict. -/
theorem force_returns_dict (w : World) (n : Nat) :
    ∃ fs, (force_recompile w n).1 = .vDict fs := by
  unfold force_recompile
  repeat' split
  all_goals exact ⟨_, rfl⟩

/-- Every action — known or not — terminates with a dict result. -/
theorem compile_monitor_returns_dict (action : String) (tOpt : Option Int)
    (sOpt : Option Bool) (w : World) (n : Nat) :
    ∃ fs, (compile_monitor action tOpt sOpt w n).1 = .vDict fs := by
  unfold compile_monitor
  repeat' split
  · exact isEnvelope_isDict (get_compile_status_envelope w n)
  · exact isEnvelope_isDict (wait_envelope w _ n)
  · exact isEnvelope_isDict (get_compilation_errors_envelope _ w n)
  · exact isEnvelope_isDict (get_compilation_warnings_envelope w n)
  · exact clear_returns_dict w n
  · exact force_returns_dict w n
  · exact ⟨_, rfl⟩

/-- Every error record returned by `get_compilation_errors` is an
`mkErrorInfo` record for its requested stack-trace mode. -/
theorem get_compilation_errors_mem (include_stack_trace : Bool) (w : World) (n : Nat) :
    ∀ r ∈ resultErrors (get_compilation_errors include_stack_trace w n).1,
      ∃ fs, r = mkErrorInfo include_stack_trace fs := by
  intro r hr
  unfold get_compilation_errors at hr
  split at hr
  · rw [resultErrors_mkFail] at hr; cases hr
  · split at hr
    · split at hr
      · split at hr
        · rw [resultErrors_mkFail] at hr; cases hr
        · split at hr
          · rw [resultErrors_mkFail] at hr; cases hr
          · rename_i errs hcoll
            rw [resultErrors_errorsResult] at hr
            exact collectErrors_mem include_stack_trace _ errs hcoll r hr
      · rw [resultErrors_errorsResult] at hr; cases hr
    · rw [resultErrors_errorsResult] at hr; cases hr

/-- Every warning record returned by `get_compilation_warnings` is an
`mkWarningInfo` record. -/
theorem get_compilation_warnings_mem (w : World) (n : Nat) :
    ∀ r ∈ resultWarnings (get_compilation_warnings w n).1,
      ∃ fs, r = mkWarningInfo fs := by
  intro r hr
  unfold get_compilation_warnings at hr
  split at hr
  · rw [resultWarnings_mkFail] at hr; cases hr
  · split at hr
    · split at hr
      · split at hr
        · rw [resultWarnings_mkFail] at hr; cases hr
        · split at hr
          · rw [resultWarnings_mkFail] at hr; cases hr
          · rename_i warns hcoll
            rw [resultWarnings_warningsResult] at hr
            exact collectWarnings_mem _ warns hcoll r hr
      · rw [resultWarnings_warningsResult] at hr; cases hr
    · rw [resultWarnings_warningsResult] at hr; cases hr

/-- Every warning record inside a `get_compile_status` snapshot is an
`mkWarningInfo` record. -/
theorem get_compile_status_warnings_mem (w : World) (n : Nat) :
    ∀ r ∈ resultWarnings (get_compile_status w n).1,
      ∃ fs, r = mkWarningInfo fs := by
  intro r hr
  unfold get_compile_status at hr
  split at hr
  · rw [resultWarnings_mkFail] at hr; cases hr
  · split at hr
    · split at hr
      · rw [resultWarnings_mkFail] at hr; cases hr
      · split at hr
        · rw [resultWarnings_mkFail] at hr; cases hr
        · split at hr
          · rw [resultWarnings_mkFail] at hr; cases hr
          · split at hr
            · rw [resultWarnings_mkFail] at hr; cases hr
            · split at hr
              · split at hr
                · split at hr
                  · rw [resultWarnings_mkFail] at hr; cases hr
                  · split at hr
                    · rw [resultWarnings_mkFail] at hr; cases hr
                    · rename_i p hclass
                      rw [resultWarnings_statusSuccess] at hr
                      exact (statusClassify_mem _ _ _ hclass).2 r hr
                · rw [resultWarnings_statusSuccess] at hr; cases hr
              · rw [resultWarnings_statusSuccess] at hr; cases hr
    · rw [resultWarnings_mkFail] at hr; cases hr

theorem not_hasTimeoutMarker_mkFail (m : String) : ¬ hasTimeoutMarker (mkFail m) := by
  intro h
  exact Option.noConfusion h

theorem not_hasTimeoutMarker_completed (k : Nat) (sd : Val) :
    ¬ hasTimeoutMarker (completedResult k sd) := by
  intro h
  exact Option.noConfusion h

theorem mkFail_ne_timeoutResult (m : String) (t : Int) : mkFail m ≠ timeoutResult t := by
  intro h
  simp [mkFail, timeoutResult] at h

theorem completedResult_ne_timeoutResult (k : Nat) (sd : Val) (t : Int) :
    completedResult k sd ≠ timeoutResult t := by
  intro h
  simp [completedResult, timeoutResult] at h

theorem marker_iff_mkFail (m : String) (t : Int) :
    hasTimeoutMarker (mkFail m) ↔ mkFail m = timeoutResult t :=
  ⟨fun h => absurd h (not_hasTimeoutMarker_mkFail m),
   fun h => absurd h (mkFail_ne_timeoutResult m t)⟩

theorem marker_iff_completed (k : Nat) (sd : Val) (t : Int) :
    hasTimeoutMarker (completedResult k sd) ↔ completedResult k sd = timeoutResult t :=
  ⟨fun h => absurd h (not_hasTimeoutMarker_completed k sd),
   fun h => absurd h (completedResult_ne_timeoutResult k sd t)⟩

/-- Along every run of the polling loop, the structured `data.timeout=true`
marker is carried exactly by the timeout result — a propagated snapshot
failure (which is a bare `mkFail`) and a success result never carry it. -/
theorem waitAux_timeout_marker (w : World) (t : Int) :
    ∀ (gas k n : Nat),
      (hasTimeoutMarker (waitAux w t gas k n).1 ↔
        (waitAux w t gas k n).1 = timeoutResult t) := by
  intro gas
  induction gas with
  | zero => intro k n; exact ⟨fun _ => rfl, fun _ => rfl⟩
  | succ gas ih =>
    intro k n
    rcases hshape : get_compile_status w n with ⟨status_response, n1⟩
    simp only [waitAux, hshape]
    split
    · rename_i hcond
      rcases get_compile_status_shape w n with ⟨m, hm⟩ | ⟨ic, iu, es, ws, hs⟩
      · rw [hshape] at hm
        rw [show status_response = mkFail m from hm]
        exact marker_iff_mkFail m t
      · exfalso
        rw [hshape] at hs
        rw [show status_response = statusSuccess ic iu es ws from hs] at hcond
        simp [truthyOpt, statusSuccess_get_success, Val.truthy] at hcond
    · repeat' split
      all_goals first
        | exact marker_iff_mkFail _ t
        | exact marker_iff_completed _ _ t
        | exact ih _ _

/-! ### Concrete worlds used in counterexamples and witnesses -/

/-- An editor that reports `isCompiling=true` forever; the console read
returns a non-success envelope. -/
def worldCompiling : World :=
  ⟨fun _ cmd _ =>
    if cmd = "manage_editor" then
      .ok (.vDict [("success", .vBool true),
                   ("data", .vDict [("isCompiling", .vBool true), ("isUpdating", .vBool false)])])
    else .ok (.vDict [("success", .vBool false)])⟩

/-- A transport whose every response is the empty dict (a response that is
not in ActionResult shape). -/
def worldEmptyDict : World := ⟨fun _ _ _ => .ok (.vDict [])⟩

/-- An idle editor whose console holds a single Error entry that carries no
stack trace. -/
def worldErrorEntry : World :=
  ⟨fun _ cmd _ =>
    if cmd = "manage_editor" then
      .ok (.vDict [("success", .vBool true), ("data", .vDict [])])
    else
      .ok (.vDict [("success", .vBool true),
                   ("data", .vList [.vDict [("type", .vStr "Error"), ("message", .vStr "boom")]])])⟩

/-- An idle editor whose console holds a single Warning entry (which does
carry a stack trace). -/
def worldWarnEntry : World :=
  ⟨fun _ cmd _ =>
    if cmd = "manage_editor" then
      .ok (.vDict [("success", .vBool true), ("data", .vDict [])])
    else
      .ok (.vDict [("success", .vBool true),
                   ("data", .vList [.vDict [("type", .vStr "Warning"), ("message", .vStr "warn"),
                                            ("stackTrace", .vStr "trace")]])])⟩

/-- A transport that raises on every call. -/
def worldRaise (e : String) : World := ⟨fun _ _ _ => .error e⟩

/-! ### Claim theorems -/

/-- C1 (counterexample): calling `wait_for_complete` with `timeoutSeconds = 0`
against an editor that still reports `isCompiling` does NOT use the
caller-supplied 0 as the deadline: `timeout_seconds or 30` treats the falsy
`0` as absent, so the wait uses the default 30-second deadline, performs 60
polls (120 transport calls, counter 0 to 120) and reports
"Compilation timeout after 30 seconds" — not a timeout after 0 seconds
within one 500 ms tick. -/
theorem c1_counterexample :
    compile_monitor "wait_for_complete" (some 0) none worldCompiling 0 = (timeoutResult 30, 120)
    ∧ (timeoutResult 30).get "message" = some (.vStr "Compilation timeout after 30 seconds")
    ∧ timeoutResult 30 ≠ timeoutResult 0 := by
  refine ⟨rfl, rfl, ?_⟩
  intro h
  simp only [timeoutResult, Val.vDict.injEq, List.cons.injEq, Prod.mk.injEq,
    Val.vStr.injEq, and_true, true_and] at h
  exact absurd h (by decide)

/-- C1 (amended): `timeoutSeconds = 0` is replaced by the default 30 (Python
`or` treats 0 as absent); only strictly negative caller-supplied timeouts
reach the waiter unchanged, and those expire on the first guard check, with
no transport call issued and the timeout failure carrying the caller's
value. -/
theorem c1_amended :
    (∀ (w : World) (n : Nat),
      compile_monitor "wait_for_complete" (some 0) none w n
        = wait_for_compilation_complete w 30 n)
    ∧ (∀ (t : Int), t < 0 → ∀ (w : World) (n : Nat),
      compile_monitor "wait_for_complete" (some t) none w n = (timeoutResult t, n)) := by
  constructor
  · intro w n; rfl
  · intro t ht w n
    have ht2 : (t != 0) = true := by
      simp only [bne_iff_ne, ne_eq]
      omega
    have h0 : pyOrInt (some t) 30 = t := by
      simp [pyOrInt, ht2]
    have hgas : (2 * t).toNat = 0 := by omega
    calc compile_monitor "wait_for_complete" (some t) none w n
        = waitAux w (pyOrInt (some t) 30) (2 * pyOrInt (some t) 30).toNat 0 n := rfl
      _ = (timeoutResult t, n) := by
          rw [h0, hgas]
          rfl

/-- C1 (witness for the amended claim, at `t = -1`): the negative timeout is
used as given and expires at once. -/
theorem c1_witness :
    compile_monitor "wait_for_complete" (some (-1)) none worldCompiling 3
      = (timeoutResult (-1), 3) :=
  c1_amended.2 (-1) (by decide) worldCompiling 3

/-- C2 (counterexample): when the transport answers the `clear_errors`
command with an empty dict — a response that is not in ActionResult shape —
`clear_errors` returns it verbatim: the result has neither a `success` nor a
`message` field, so not every action normalizes every transport response
into the envelope. -/
theorem c2_counterexample :
    compile_monitor "clear_errors" none none worldEmptyDict 0 = (.vDict [], 1)
    ∧ Val.get (.vDict []) "success" = none
    ∧ Val.get (.vDict []) "message" = none :=
  ⟨rfl, rfl, rfl⟩

/-- C2 (amended): every action returns a dict, and the four query actions
(`get_status`, `wait_for_complete`, `get_errors`, `get_warnings`) always
return the full ActionResult envelope (boolean `success`, text `message`);
but `clear_errors` passes any dict transport response through unchanged, and
`force_recompile` does the same for any dict response without a truthy
`success` — so for those two only non-dict responses are normalized into the
envelope, and a non-conforming dict response escapes as-is. -/
theorem c2_amended :
    (∀ (action : String) (tOpt : Option Int) (sOpt : Option Bool) (w : World) (n : Nat),
      ∃ fs, (compile_monitor action tOpt sOpt w n).1 = .vDict fs)
    ∧ (∀ (w : World) (n : Nat), isEnvelope (get_compile_status w n).1)
    ∧ (∀ (w : World) (t : Int) (n : Nat), isEnvelope (wait_for_compilation_complete w t n).1)
    ∧ (∀ (b : Bool) (w : World) (n : Nat), isEnvelope (get_compilation_errors b w n).1)
    ∧ (∀ (w : World) (n : Nat), isEnvelope (get_compilation_warnings w n).1)
    ∧ (∀ (w : World) (n : Nat) (fs : List (String × Val)),
        w.send n "read_console" consoleClearParams = .ok (.vDict fs) →
        clear_compilation_errors w n = (.vDict fs, n + 1))
    ∧ (∀ (w : World) (n : Nat) (v : Val),
        w.send n "read_console" consoleClearParams = .ok v →
        (∀ gs, v ≠ .vDict gs) →
        clear_compilation_errors w n = (mkFail v.pyStr, n + 1))
    ∧ (∀ (w : World) (n : Nat) (fs : List (String × Val)),
        w.send n "execute_menu_item" menuRefreshParams = .ok (.vDict fs) →
        (fieldOrD fs "success" .vNull).truthy = false →
        force_recompile w n = (.vDict fs, n + 1)) := by
  refine ⟨compile_monitor_returns_dict, get_compile_status_envelope,
    fun w t n => wait_envelope w t n,
    fun b w n => get_compilation_errors_envelope b w n,
    get_compilation_warnings_envelope, ?_, ?_, ?_⟩
  · intro w n fs hsend
    unfold clear_compilation_errors
    rw [hsend]
  · intro w n v hsend hnd
    unfold clear_compilation_errors
    rw [hsend]
    cases v with
    | vDict gs => exact absurd rfl (hnd gs)
    | vNull => rfl
    | vBool b => rfl
    | vInt i => rfl
    | vStr s => rfl
    | vList xs => rfl
  · intro w n fs hsend hfs
    unfold force_recompile
    rw [hsend]
    show (if (fieldOrD fs "success" Val.vNull).truthy = true then
            (Val.vDict [("success", Val.vBool true),
                        ("message", Val.vStr "Forced recompilation initiated"),
                        ("data", Val.vDict [("recompileTriggered", Val.vBool true)])], n + 1)
          else (Val.vDict fs, n + 1)) = (Val.vDict fs, n + 1)
    rw [hfs]
    rfl

/-- C2 (witness for the amended claim): the empty-dict clear response is
passed through, and a string response is normalized. -/
theorem c2_witness :
    clear_compilation_errors worldEmptyDict 0 = (.vDict [], 1) :=
  c2_amended.2.2.2.2.2.1 worldEmptyDict 0 [] rfl

theorem dataGet_statusSuccess_isCompiling (a b : Val) (es ws : List Val) :
    dataGet (statusSuccess a b es ws) "isCompiling" = some a := rfl

theorem dataGet_statusSuccess_isUpdating (a b : Val) (es ws : List Val) :
    dataGet (statusSuccess a b es ws) "isUpdating" = some b := rfl

theorem dataGet_statusSuccess_status (a b : Val) (es ws : List Val) :
    dataGet (statusSuccess a b es ws) "status"
      = some (if a.truthy then .vStr "compiling"
              else if b.truthy then .vStr "updating" else .vStr "idle") := rfl

/-- The two selectors never both fire on one entry, so the classification
lists together never exceed the input length. -/
theorem classify_length_le : ∀ (l : List Val),
    (l.filterMap errStatusSel).length + (l.filterMap warnSel).length ≤ l.length := by
  intro l
  induction l with
  | nil => simp
  | cons e rest ih =>
    rw [List.filterMap_cons, List.filterMap_cons]
    cases e with
    | vDict fs =>
      by_cases hE : strEq (fieldOrD fs "type" .vNull) "Error" = true
      · have hW : strEq (fieldOrD fs "type" .vNull) "Warning" = false := by
          rw [strEq_eq_true_iff] at hE
          rw [hE]
          simp [strEq]
        simp only [errStatusSel, warnSel, hE, hW, if_true, if_false, Bool.false_eq_true,
          List.length_cons]
        omega
      · by_cases hW : strEq (fieldOrD fs "type" .vNull) "Warning" = true
        · simp only [errStatusSel, warnSel, if_neg hE, if_pos hW, List.length_cons]
          omega
        · simp only [errStatusSel, warnSel, if_neg hE, if_neg hW, List.length_cons]
          omega
    | vNull => simp only [errStatusSel, warnSel, List.length_cons]; omega
    | vBool b => simp only [errStatusSel, warnSel, List.length_cons]; omega
    | vInt i => simp only [errStatusSel, warnSel, List.length_cons]; omega
    | vStr s => simp only [errStatusSel, warnSel, List.length_cons]; omega
    | vList xs => simp only [errStatusSel, warnSel, List.length_cons]; omega

/-- C3 (counterexample): `get_status` returns classified diagnostic entries,
offers the caller no way to request stack traces, and the single console
Error entry of this world carries no stack trace at all — yet the returned
error record contains a `stackTrace` field (defaulted to `""`).  So
"stackTrace attached iff requested and non-empty" fails for `get_status`. -/
theorem c3_counterexample :
    resultErrors (compile_monitor "get_status" none none worldErrorEntry 0).1
      = [.vDict [("message", .vStr "boom"), ("file", .vStr ""), ("line", .vStr ""),
                 ("stackTrace", .vStr "")]]
    ∧ Val.get (.vDict [("message", .vStr "boom"), ("file", .vStr ""), ("line", .vStr ""),
        ("stackTrace", .vStr "")]) "stackTrace" = some (.vStr "")
    ∧ Val.get (.vDict [("type", .vStr "Error"), ("message", .vStr "boom")]) "stackTrace"
        = none :=
  ⟨rfl, rfl, rfl⟩

/-- C3 (amended): the conditional attachment holds for `get_errors` — a
returned error record carries `stackTrace` exactly when the caller requested
it and the entry's stack trace is truthy, so `includeStackTrace=false` never
yields one — while `get_compile_status` always attaches a `stackTrace` field,
defaulting to the empty string. -/
theorem c3_amended :
    (∀ (fs : List (String × Val)), Val.get (mkErrorInfo false fs) "stackTrace" = none)
    ∧ (∀ (b : Bool) (fs : List (String × Val)),
        Val.get (mkErrorInfo b fs) "stackTrace"
          = (if b && (fieldOrD fs "stackTrace" .vNull).truthy then
               some (fieldOrD fs "stackTrace" (.vStr "")) else none))
    ∧ (∀ (fs : List (String × Val)),
        Val.get (mkStatusErrorInfo fs) "stackTrace" = some (fieldOrD fs "stackTrace" (.vStr "")))
    ∧ (∀ (b : Bool) (w : World) (n : Nat),
        ∀ r ∈ resultErrors (get_compilation_errors b w n).1, ∃ fs, r = mkErrorInfo b fs) := by
  refine ⟨fun fs => rfl, ?_, fun fs => rfl, get_compilation_errors_mem⟩
  intro b fs
  by_cases h : (b && (fieldOrD fs "stackTrace" .vNull).truthy) = true
  · rw [mkErrorInfo, if_pos h, if_pos h]
    rfl
  · rw [mkErrorInfo, if_neg h, if_neg h]
    rfl

/-- C3 (witness for the amended claim): the error record that
`get_errors(includeStackTrace=false)` produces for the boom entry is an
`mkErrorInfo false` record — hence carries no `stackTrace`. -/
theorem c3_witness :
    ∃ fs, (.vDict [("message", .vStr "boom"), ("file", .vStr ""), ("line", .vStr "")] : Val)
      = mkErrorInfo false fs :=
  c3_amended.2.2.2 false worldErrorEntry 0
    (.vDict [("message", .vStr "boom"), ("file", .vStr ""), ("line", .vStr "")])
    (List.mem_cons_self _ _)

/-- C4: on every successful snapshot the label is `"compiling"` iff the
compiling flag is truthy, `"updating"` iff the compiling flag is falsy and
the updating flag truthy, `"idle"` iff both are falsy — and the label is
always exactly one of the three. -/
theorem c4_label_invariant (w : World) (n : Nat)
    (h : truthyOpt ((get_compile_status w n).1.get "success") = true) :
    ∃ ic iu,
      dataGet (get_compile_status w n).1 "isCompiling" = some ic
      ∧ dataGet (get_compile_status w n).1 "isUpdating" = some iu
      ∧ ((dataGet (get_compile_status w n).1 "status" = some (.vStr "compiling"))
          ↔ ic.truthy = true)
      ∧ ((dataGet (get_compile_status w n).1 "status" = some (.vStr "updating"))
          ↔ (ic.truthy = false ∧ iu.truthy = true))
      ∧ ((dataGet (get_compile_status w n).1 "status" = some (.vStr "idle"))
          ↔ (ic.truthy = false ∧ iu.truthy = false))
      ∧ (dataGet (get_compile_status w n).1 "status" = some (.vStr "compiling")
         ∨ dataGet (get_compile_status w n).1 "status" = some (.vStr "updating")
         ∨ dataGet (get_compile_status w n).1 "status" = some (.vStr "idle")) := by
  rcases get_compile_status_shape w n with ⟨m, hm⟩ | ⟨ic, iu, es, ws, hs⟩
  · rw [hm] at h
    simp [truthyOpt, mkFail_get_success, Val.truthy] at h
  · refine ⟨ic, iu, ?_⟩
    rw [hs]
    rw [dataGet_statusSuccess_isCompiling, dataGet_statusSuccess_isUpdating,
      dataGet_statusSuccess_status]
    cases hic : ic.truthy <;> cases hiu : iu.truthy <;> simp

/-- C4 (witness): against the always-compiling editor the label invariant is
realized with `isCompiling = true`. -/
theorem c4_witness :
    ∃ ic iu,
      dataGet (get_compile_status worldCompiling 0).1 "isCompiling" = some ic
      ∧ dataGet (get_compile_status worldCompiling 0).1 "isUpdating" = some iu
      ∧ ((dataGet (get_compile_status worldCompiling 0).1 "status" = some (.vStr "compiling"))
          ↔ ic.truthy = true)
      ∧ ((dataGet (get_compile_status worldCompiling 0).1 "status" = some (.vStr "updating"))
          ↔ (ic.truthy = false ∧ iu.truthy = true))
      ∧ ((dataGet (get_compile_status worldCompiling 0).1 "status" = some (.vStr "idle"))
          ↔ (ic.truthy = false ∧ iu.truthy = false))
      ∧ (dataGet (get_compile_status worldCompiling 0).1 "status" = some (.vStr "compiling")
         ∨ dataGet (get_compile_status worldCompiling 0).1 "status" = some (.vStr "updating")
         ∨ dataGet (get_compile_status worldCompiling 0).1 "status" = some (.vStr "idle")) :=
  c4_label_invariant worldCompiling 0 rfl

/-- Console entries used to witness the classifier claims: one Error, one
Warning, one Log (kind Other). -/
def witnessEntries : List Val :=
  [.vDict [("type", .vStr "Error"), ("message", .vStr "e1")],
   .vDict [("type", .vStr "Warning"), ("message", .vStr "w1")],
   .vDict [("type", .vStr "Log"), ("message", .vStr "l1")]]

/-- C5: on dict-shaped console entries each loop computes the order-preserving
`filterMap` of its selector (entries classified by exact kind match; `Other`
entries land in neither list), and the two output lengths together never
exceed the input length. -/
theorem c5_classifier (entries : List Val)
    (h : ∀ e ∈ entries, ∃ fs, e = Val.vDict fs) :
    statusClassify entries = .ok (entries.filterMap errStatusSel, entries.filterMap warnSel)
    ∧ (∀ b, collectErrors b entries = .ok (entries.filterMap (errSel b)))
    ∧ collectWarnings entries = .ok (entries.filterMap warnSel)
    ∧ (entries.filterMap errStatusSel).length + (entries.filterMap warnSel).length
        ≤ entries.length :=
  ⟨statusClassify_eq entries h, fun b => collectErrors_eq b entries h,
   collectWarnings_eq entries h, classify_length_le entries⟩

/-- C5 (witness): the classifier applied to one Error, one Warning and one
Log entry. -/
theorem c5_witness :
    statusClassify witnessEntries
      = .ok (witnessEntries.filterMap errStatusSel, witnessEntries.filterMap warnSel)
    ∧ (∀ b, collectErrors b witnessEntries = .ok (witnessEntries.filterMap (errSel b)))
    ∧ collectWarnings witnessEntries = .ok (witnessEntries.filterMap warnSel)
    ∧ (witnessEntries.filterMap errStatusSel).length
        + (witnessEntries.filterMap warnSel).length ≤ witnessEntries.length :=
  c5_classifier witnessEntries (by
    intro e he
    rcases List.mem_cons.1 he with rfl | he2
    · exact ⟨_, rfl⟩
    · rcases List.mem_cons.1 he2 with rfl | he3
      · exact ⟨_, rfl⟩
      · rcases List.mem_cons.1 he3 with rfl | he4
        · exact ⟨_, rfl⟩
        · cases he4)

/-- C6: when the editor-state query returns anything other than a success
envelope (a non-dict, or a dict without truthy `success`), `get_status`
reports exactly `{success:false, message:"Failed to get editor state"}` after
a single transport call — the console-diagnostics query (which would be
transport call `n+1`) is never issued, as the returned counter `n + 1`
records. -/
theorem c6_editor_failure (w : World) (n : Nat) (v : Val)
    (hsend : w.send n "manage_editor" getStateParams = .ok v)
    (hfail : successEnvelope v = false) :
    compile_monitor "get_status" none none w n
      = (mkFail "Failed to get editor state", n + 1) := by
  show get_compile_status w n = _
  cases v with
  | vDict efs =>
    simp only [successEnvelope] at hfail
    simp only [get_compile_status, hsend, hfail, Bool.not_false, if_true]
  | vNull => simp only [get_compile_status, hsend]
  | vBool b => simp only [get_compile_status, hsend]
  | vInt i => simp only [get_compile_status, hsend]
  | vStr s => simp only [get_compile_status, hsend]
  | vList xs => simp only [get_compile_status, hsend]

/-- C6 (witness): the empty-dict editor response. -/
theorem c6_witness :
    compile_monitor "get_status" none none worldEmptyDict 0
      = (mkFail "Failed to get editor state", 0 + 1) :=
  c6_editor_failure worldEmptyDict 0 (.vDict []) rfl rfl

/-- C7: a console response that is not a success envelope is tolerated
everywhere — `get_errors` and `get_warnings` still succeed with empty lists,
and `get_status` still returns a successful snapshot (truthy `success`) with
empty error and warning lists. -/
theorem c7_console_failure_tolerated (w : World) (n : Nat) (c : Val)
    (hfail : successEnvelope c = false) :
    (w.send n "read_console" (consoleGetParams 100) = .ok c →
      (∀ b, get_compilation_errors b w n = (errorsResult [], n + 1))
      ∧ get_compilation_warnings w n = (warningsResult [], n + 1))
    ∧ (∀ (efs dfs : List (String × Val)),
        w.send n "manage_editor" getStateParams = .ok (.vDict efs) →
        (fieldOrD efs "success" .vNull).truthy = true →
        fieldOrD efs "data" (.vDict []) = .vDict dfs →
        w.send (n + 1) "read_console" (consoleGetParams 50) = .ok c →
        get_compile_status w n =
          (statusSuccess (fieldOrD dfs "isCompiling" (.vBool false))
            (fieldOrD dfs "isUpdating" (.vBool false)) [] [], n + 2))
    ∧ (∀ (a b : Val), truthyOpt ((statusSuccess a b [] []).get "success") = true) := by
  refine ⟨fun hsend => ⟨fun b => ?_, ?_⟩, fun efs dfs hsend hsucc hdata hconsole => ?_,
    fun a b => rfl⟩
  · cases c with
    | vDict cfs =>
      simp only [successEnvelope] at hfail
      simp only [get_compilation_errors, hsend, hfail, Bool.false_eq_true, if_false]
    | vNull => simp only [get_compilation_errors, hsend]
    | vBool x => simp only [get_compilation_errors, hsend]
    | vInt x => simp only [get_compilation_errors, hsend]
    | vStr x => simp only [get_compilation_errors, hsend]
    | vList x => simp only [get_compilation_errors, hsend]
  · cases c with
    | vDict cfs =>
      simp only [successEnvelope] at hfail
      simp only [get_compilation_warnings, hsend, hfail, Bool.false_eq_true, if_false]
    | vNull => simp only [get_compilation_warnings, hsend]
    | vBool x => simp only [get_compilation_warnings, hsend]
    | vInt x => simp only [get_compilation_warnings, hsend]
    | vStr x => simp only [get_compilation_warnings, hsend]
    | vList x => simp only [get_compilation_warnings, hsend]
  · cases c with
    | vDict cfs =>
      simp only [successEnvelope] at hfail
      simp only [get_compile_status, hsend, hsucc, hdata, hconsole, pyGetD,
        Bool.not_true, Bool.false_eq_true, if_false, hfail]
    | vNull => simp only [get_compile_status, hsend, hsucc, hdata, hconsole, pyGetD,
        Bool.not_true, Bool.false_eq_true, if_false]
    | vBool x => simp only [get_compile_status, hsend, hsucc, hdata, hconsole, pyGetD,
        Bool.not_true, Bool.false_eq_true, if_false]
    | vInt x => simp only [get_compile_status, hsend, hsucc, hdata, hconsole, pyGetD,
        Bool.not_true, Bool.false_eq_true, if_false]
    | vStr x => simp only [get_compile_status, hsend, hsucc, hdata, hconsole, pyGetD,
        Bool.not_true, Bool.false_eq_true, if_false]
    | vList x => simp only [get_compile_status, hsend, hsucc, hdata, hconsole, pyGetD,
        Bool.not_true, Bool.false_eq_true, if_false]

/-- C7 (witness): against `worldCompiling` — whose console always answers
with a non-success envelope — the dedicated diagnostics calls succeed with
empty lists, and the status snapshot succeeds with empty diagnostics. -/
theorem c7_witness :
    ((∀ b, get_compilation_errors b worldCompiling 0 = (errorsResult [], 0 + 1))
      ∧ get_compilation_warnings worldCompiling 0 = (warningsResult [], 0 + 1))
    ∧ get_compile_status worldCompiling 0
        = (statusSuccess
            (fieldOrD [("isCompiling", .vBool true), ("isUpdating", .vBool false)]
              "isCompiling" (.vBool false))
            (fieldOrD [("isCompiling", .vBool true), ("isUpdating", .vBool false)]
              "isUpdating" (.vBool false)) [] [], 0 + 2) :=
  ⟨(c7_console_failure_tolerated worldCompiling 0
      (.vDict [("success", .vBool false)]) rfl).1 rfl,
   (c7_console_failure_tolerated worldCompiling 0
      (.vDict [("success", .vBool false)]) rfl).2.1
      [("success", .vBool true),
       ("data", .vDict [("isCompiling", .vBool true), ("isUpdating", .vBool false)])]
      [("isCompiling", .vBool true), ("isUpdating", .vBool false)] rfl rfl rfl rfl⟩

/-- C8: a timeout of the waiter is reported as exactly
`{success:false, message:"Compilation timeout after <N> seconds",
data:{timeout:true}}`, and the structured `data.timeout=true` marker is
carried by the waiter's result precisely when that result is the timeout
result — a propagated transport/snapshot failure never carries it. -/
theorem c8_timeout_shape (w : World) (t : Int) (n : Nat) :
    (hasTimeoutMarker (wait_for_compilation_complete w t n).1
      ↔ (wait_for_compilation_complete w t n).1 = timeoutResult t)
    ∧ timeoutResult t
        = .vDict [("success", .vBool false),
                  ("message", .vStr ("Compilation timeout after " ++ toString t ++ " seconds")),
                  ("data", .vDict [("timeout", .vBool true)])] :=
  ⟨waitAux_timeout_marker w t (2 * t).toNat 0 n, rfl⟩

/-- C9: against a transport that raises an arbitrary exception on every call,
every action still returns a reported-failure envelope (`success=false` plus
a text message) — no fault propagates — and each of the six handlers converts
the fault into its own context-carrying message
(`"Error <doing what>: <cause>"`; for the waiter the snapshot failure is
surfaced verbatim whenever the effective timeout admits at least one poll). -/
theorem c9_fault_containment (action : String) (tOpt : Option Int) (sOpt : Option Bool)
    (e : String) (n : Nat) :
    ((compile_monitor action tOpt sOpt (worldRaise e) n).1.get "success"
        = some (.vBool false)
      ∧ ∃ m, (compile_monitor action tOpt sOpt (worldRaise e) n).1.get "message"
        = some (.vStr m))
    ∧ (action = "get_status" → (compile_monitor action tOpt sOpt (worldRaise e) n).1
        = mkFail ("Error getting compile status: " ++ e))
    ∧ (action = "get_errors" → (compile_monitor action tOpt sOpt (worldRaise e) n).1
        = mkFail ("Error getting compilation errors: " ++ e))
    ∧ (action = "get_warnings" → (compile_monitor action tOpt sOpt (worldRaise e) n).1
        = mkFail ("Error getting compilation warnings: " ++ e))
    ∧ (action = "clear_errors" → (compile_monitor action tOpt sOpt (worldRaise e) n).1
        = mkFail ("Error clearing compilation errors: " ++ e))
    ∧ (action = "force_recompile" → (compile_monitor action tOpt sOpt (worldRaise e) n).1
        = mkFail ("Error forcing recompilation: " ++ e))
    ∧ (action = "wait_for_complete" → 0 < pyOrInt tOpt 30 →
        (compile_monitor action tOpt sOpt (worldRaise e) n).1
          = mkFail ("Error getting compile status: " ++ e)) := by
  by_cases h1 : action = "get_status"
  · subst h1
    exact ⟨⟨rfl, ⟨_, rfl⟩⟩, fun _ => rfl,
      fun h => absurd h (by decide), fun h => absurd h (by decide),
      fun h => absurd h (by decide), fun h => absurd h (by decide),
      fun h => absurd h (by decide)⟩
  by_cases h2 : action = "wait_for_complete"
  · subst h2
    refine ⟨?_, fun h => absurd h (by decide), fun h => absurd h (by decide),
      fun h => absurd h (by decide), fun h => absurd h (by decide),
      fun h => absurd h (by decide), fun _ ht => ?_⟩
    · rcases hgas : (2 * pyOrInt tOpt 30).toNat with _ | g
      · have hred : compile_monitor "wait_for_complete" tOpt sOpt (worldRaise e) n
            = (timeoutResult (pyOrInt tOpt 30), n) := by
          show waitAux (worldRaise e) (pyOrInt tOpt 30) (2 * pyOrInt tOpt 30).toNat 0 n = _
          rw [hgas]
          rfl
        rw [hred]
        exact ⟨rfl, ⟨_, rfl⟩⟩
      · have hred : compile_monitor "wait_for_complete" tOpt sOpt (worldRaise e) n
            = (mkFail ("Error getting compile status: " ++ e), n + 1) := by
          show waitAux (worldRaise e) (pyOrInt tOpt 30) (2 * pyOrInt tOpt 30).toNat 0 n = _
          rw [hgas]
          rfl
        rw [hred]
        exact ⟨rfl, ⟨_, rfl⟩⟩
    · obtain ⟨g, hg⟩ : ∃ g, (2 * pyOrInt tOpt 30).toNat = g + 1 :=
        ⟨(2 * pyOrInt tOpt 30).toNat - 1, by omega⟩
      have hred : compile_monitor "wait_for_complete" tOpt sOpt (worldRaise e) n
          = (mkFail ("Error getting compile status: " ++ e), n + 1) := by
        show waitAux (worldRaise e) (pyOrInt tOpt 30) (2 * pyOrInt tOpt 30).toNat 0 n = _
        rw [hg]
        rfl
      rw [hred]
  by_cases h3 : action = "get_errors"
  · subst h3
    exact ⟨⟨rfl, ⟨_, rfl⟩⟩, fun h => absurd h (by decide), fun _ => rfl,
      fun h => absurd h (by decide), fun h => absurd h (by decide),
      fun h => absurd h (by decide), fun h => absurd h (by decide)⟩
  by_cases h4 : action = "get_warnings"
  · subst h4
    exact ⟨⟨rfl, ⟨_, rfl⟩⟩, fun h => absurd h (by decide),
      fun h => absurd h (by decide), fun _ => rfl,
      fun h => absurd h (by decide), fun h => absurd h (by decide),
      fun h => absurd h (by decide)⟩
  by_cases h5 : action = "clear_errors"
  · subst h5
    exact ⟨⟨rfl, ⟨_, rfl⟩⟩, fun h => absurd h (by decide),
      fun h => absurd h (by decide), fun h => absurd h (by decide),
      fun _ => rfl, fun h => absurd h (by decide), fun h => absurd h (by decide)⟩
  by_cases h6 : action = "force_recompile"
  · subst h6
    exact ⟨⟨rfl, ⟨_, rfl⟩⟩, fun h => absurd h (by decide),
      fun h => absurd h (by decide), fun h => absurd h (by decide),
      fun h => absurd h (by decide), fun _ => rfl, fun h => absurd h (by decide)⟩
  · have hred : compile_monitor action tOpt sOpt (worldRaise e) n
        = (mkFail ("Unknown action: " ++ action), n) := by
      simp only [compile_monitor, if_neg h1, if_neg h2, if_neg h3, if_neg h4,
        if_neg h5, if_neg h6]
    rw [hred]
    exact ⟨⟨rfl, ⟨_, rfl⟩⟩, fun h => absurd h h1, fun h => absurd h h3,
      fun h => absurd h h4, fun h => absurd h h5, fun h => absurd h h6,
      fun h => absurd h h2⟩

/-- C9 (witness): the raising transport under `get_status`. -/
theorem c9_witness :
    (compile_monitor "get_status" none none (worldRaise "boom") 0).1
      = mkFail ("Error getting compile status: " ++ "boom") :=
  (c9_fault_containment "get_status" none none "boom" 0).2.1 rfl

/-- C10: warning records contain exactly the fields message, file, line and
never a stackTrace field; `get_warnings` ignores the stack-trace parameter
entirely; and every warning record any operation returns (dedicated call or
status snapshot) is such a record. -/
theorem c10_warning_shape :
    (∀ (fs : List (String × Val)),
      (mkWarningInfo fs).keys = ["message", "file", "line"]
      ∧ Val.get (mkWarningInfo fs) "stackTrace" = none)
    ∧ (∀ (tOpt : Option Int) (s1 s2 : Option Bool) (w : World) (n : Nat),
        compile_monitor "get_warnings" tOpt s1 w n = compile_monitor "get_warnings" tOpt s2 w n)
    ∧ (∀ (w : World) (n : Nat),
        ∀ r ∈ resultWarnings (get_compilation_warnings w n).1, ∃ fs, r = mkWarningInfo fs)
    ∧ (∀ (w : World) (n : Nat),
        ∀ r ∈ resultWarnings (get_compile_status w n).1, ∃ fs, r = mkWarningInfo fs) :=
  ⟨fun _ => ⟨rfl, rfl⟩, fun _ _ _ _ _ => rfl,
   get_compilation_warnings_mem, get_compile_status_warnings_mem⟩

/-- C10 (witness): the warning record produced for a Warning console entry
that does carry a stack trace is an `mkWarningInfo` record — message, file,
line only. -/
theorem c10_witness :
    ∃ fs, (.vDict [("message", .vStr "warn"), ("file", .vStr ""), ("line", .vStr "")] : Val)
      = mkWarningInfo fs :=
  c10_warning_shape.2.2.1 worldWarnEntry 0
    (.vDict [("message", .vStr "warn"), ("file", .vStr ""), ("line", .vStr "")])
    (List.mem_cons_self _ _)

end CompileMonitor
